import Mathlib

/-!
Shallow embedding of the deno-plc/adapter-tcp connection engine
(class `TCPAdapter` in `mod.ts`): the reconnect loop `#loop`, the error
classifier `#handle_err`, the observable `status` / `details` signals,
the bounded duration statistics with their average, the back-off delay
computation, the constructor's disabled-host guard, and the
write-safety guard of the per-session send callback.

Durations are modelled as rationals (JavaScript numbers restricted to
the exact arithmetic the code performs: sum, division by a count,
subtraction, min).  The initial `NaN` of `avg_conn_duration` is
modelled as `none : Option ℚ`; every value the code actually computes
is a real number and is modelled as `some`.
-/

/-- Connection status enum, `TCPAdapterConnectionStatus` in `mod.ts`. -/
inductive TCPAdapterConnectionStatus where
  | DISCONNECTED
  | CONNECTING
  | CONNECTED
deriving DecidableEq, Repr

/-- Connection detail enum, `TCPAdapterConnectionDetails` in `mod.ts`. -/
inductive TCPAdapterConnectionDetails where
  | NO_ERROR
  | UNKNOWN_ERROR
  | ECONNRESET
  | ECONNREFUSED
  | ETIMEDOUT
  | INTERRUPTED
deriving DecidableEq, Repr

/-- A JavaScript failure value as `#handle_err` inspects it: either an
`Error` instance carrying a `name` string, or any other value (one for
which `err instanceof Error` is false, i.e. a value with no
recognizable type/shape). -/
inductive JSValue where
  | error (name : String)
  | other
deriving DecidableEq, Repr

/-- Detail classification performed by `#handle_err`: `instanceof Error`,
then a chain of string comparisons on `err.name`; any unrecognized name
and any non-`Error` value map to `UNKNOWN_ERROR`. -/
def handle_err_details (err : JSValue) : TCPAdapterConnectionDetails :=
  match err with
  | .error name =>
    if name = "ConnectionRefused" then .ECONNREFUSED
    else if name = "ConnectionReset" then .ECONNRESET
    else if name = "Interrupted" then .INTERRUPTED
    else if name = "TimedOut" then .ETIMEDOUT
    else if name = "ConnectionAborted" then .NO_ERROR
    else .UNKNOWN_ERROR
  | .other => .UNKNOWN_ERROR

/-- Engine state: the two observable signals, the duration statistics
list `#stats_conn_duration` and the `avg_conn_duration` signal. -/
structure EngineState where
  status : TCPAdapterConnectionStatus
  details : TCPAdapterConnectionDetails
  stats_conn_duration : List ℚ
  avg_conn_duration : Option ℚ
deriving DecidableEq, Repr

/-- Initial state set by the field initializers of `TCPAdapter`:
`status = DISCONNECTED`, `details = NO_ERROR`, empty statistics,
`avg_conn_duration = NaN` (modelled `none`). -/
def initState : EngineState :=
  { status := .DISCONNECTED
    details := .NO_ERROR
    stats_conn_duration := []
    avg_conn_duration := none }

/-- One atomic `batch`-grouped signal write: which value (if any) was
assigned to `status` and to `details` in that batch.  A bare signal
assignment outside `batch` is a batch touching a single field. -/
structure BatchWrite where
  status : Option TCPAdapterConnectionStatus
  details : Option TCPAdapterConnectionDetails
deriving DecidableEq, Repr

/-- State effect of `#handle_err err`: a single batch assigns
`status := DISCONNECTED` and `details := handle_err_details err`;
nothing else changes.  Returns the new state and the batch. -/
def handle_err (st : EngineState) (err : JSValue) :
    EngineState × BatchWrite :=
  ({ st with status := .DISCONNECTED, details := handle_err_details err },
   { status := some .DISCONNECTED, details := some (handle_err_details err) })

/-- One `shift()` per iteration of the
`while (this.#stats_conn_duration.length > 6) shift()` loop, with
explicit fuel; the loop removes the head (oldest entry) while more than
6 entries remain, and runs at most `length` times. -/
def shiftLoop : ℕ → List ℚ → List ℚ
  | 0, h => h
  | fuel + 1, h => if 6 < h.length then shiftLoop fuel h.tail else h

/-- The statistics-trimming `while` loop of `#loop`. -/
def shiftWhileOver6 (h : List ℚ) : List ℚ :=
  shiftLoop h.length h

/-- How the inbound pump of one attempt ends: the readable stream closes
cleanly, or the attempt's `try` block throws — either a read error from
the stream or an exception raised by `session.recv` inside the
`for await` body (both reach the same `catch`). -/
inductive ReadEnd where
  | cleanClose
  | readError (e : JSValue)
deriving DecidableEq, Repr

/-- Outcome of one connection attempt: `Deno.connect` rejects with a
failure value, or it resolves and the connected phase later ends as
described by `ReadEnd`. -/
inductive AttemptOutcome where
  | connectFail (e : JSValue)
  | connOk (rend : ReadEnd)
deriving DecidableEq, Repr

/-- One simulated attempt: its outcome and its wall-clock duration
`performance.now() - connStart` in milliseconds. -/
structure AttemptSpec where
  outcome : AttemptOutcome
  duration : ℚ
deriving DecidableEq, Repr

/-- Result of one iteration of `#loop`: the engine state after the
iteration, the ordered list of batched signal writes it performed, how
often `#session_factory` was invoked and `session.destroy()` called,
the delay value passed to `setTimeout`, and whether a next iteration
was scheduled at all. -/
structure LoopIterResult where
  state : EngineState
  batches : List BatchWrite
  factoryInvocations : ℕ
  destroyCalls : ℕ
  delayArg : ℚ
  scheduledNext : Bool
deriving DecidableEq, Repr

/-- Unconditional tail of one `#loop` iteration, reached on every path
after the `try`/`catch`:
`status := DISCONNECTED`; clear the current connection; push the
attempt duration and trim the statistics to 6 entries; recompute the
average; `setTimeout(next, Math.min(0, 5000 - avg))`; finally
`session?.destroy()` (one `destroy` call exactly when a session was
created this attempt). -/
def finishIter (st : EngineState) (bs : List BatchWrite)
    (session : Option Unit) (dur : ℚ) : LoopIterResult :=
  let stats := shiftWhileOver6 (st.stats_conn_duration ++ [dur])
  let avg : ℚ := stats.sum / (stats.length : ℚ)
  { state :=
      { status := .DISCONNECTED
        details := st.details
        stats_conn_duration := stats
        avg_conn_duration := some avg }
    batches := bs ++ [{ status := some .DISCONNECTED, details := none }]
    factoryInvocations := match session with | some _ => 1 | none => 0
    destroyCalls := match session with | some _ => 1 | none => 0
    delayArg := min 0 (5000 - avg)
    scheduledNext := true }

/-- One iteration of `#loop`.  The `try` block sets
`status := CONNECTING`, awaits the connect (a rejection jumps to the
`catch`, which runs `#handle_err`), on success assigns `status :=
CONNECTED` and `details := NO_ERROR` in one batch, invokes the session
factory, and pumps the stream until it ends; a thrown read/`recv`
error again reaches the `catch`.  Every path then falls through to
`finishIter`. -/
def loopIter (st : EngineState) (sp : AttemptSpec) : LoopIterResult :=
  let st1 : EngineState := { st with status := .CONNECTING }
  let b1 : BatchWrite := { status := some .CONNECTING, details := none }
  match sp.outcome with
  | .connectFail e =>
    let r := handle_err st1 e
    finishIter r.1 [b1, r.2] none sp.duration
  | .connOk rend =>
    let st2 : EngineState :=
      { st1 with status := .CONNECTED, details := .NO_ERROR }
    let b2 : BatchWrite :=
      { status := some .CONNECTED, details := some .NO_ERROR }
    let session : Option Unit := some ()
    match rend with
    | .cleanClose => finishIter st2 [b1, b2] session sp.duration
    | .readError e =>
      let r := handle_err st2 e
      finishIter r.1 [b1, b2, r.2] session sp.duration

/-- Accumulated observable outcome of running the loop over a finite
list of simulated attempt outcomes. -/
structure RunResult where
  state : EngineState
  batches : List BatchWrite
  attemptCount : ℕ
  factoryInvocations : ℕ
  destroyCalls : ℕ
  scheduleCount : ℕ
  lastDelayArg : Option ℚ
deriving DecidableEq, Repr

/-- Run the reconnect loop from a given state through a finite list of
simulated attempts, accumulating all signal writes and counters. -/
def runLoopFrom (st : EngineState) : List AttemptSpec → RunResult
  | [] =>
    { state := st, batches := [], attemptCount := 0
      factoryInvocations := 0, destroyCalls := 0, scheduleCount := 0
      lastDelayArg := none }
  | sp :: rest =>
    let r := loopIter st sp
    let rr := runLoopFrom r.state rest
    { state := rr.state
      batches := r.batches ++ rr.batches
      attemptCount := rr.attemptCount + 1
      factoryInvocations := r.factoryInvocations + rr.factoryInvocations
      destroyCalls := r.destroyCalls + rr.destroyCalls
      scheduleCount := (if r.scheduledNext then 1 else 0) + rr.scheduleCount
      lastDelayArg := some (rr.lastDelayArg.getD r.delayArg) }

/-- Constructor guard: `if (options.host && options.host !== "!")` —
in JavaScript a string is truthy exactly when it is nonempty, so the
loop starts iff the host is neither `""` nor `"!"`. -/
def loopEnabled (host : String) : Bool :=
  decide (host ≠ "") && decide (host ≠ "!")

/-- Observable outcome of a constructed adapter whose loop never ran:
the initial state, no signal writes, no attempts, no factory calls. -/
def noRunResult : RunResult :=
  { state := initState, batches := [], attemptCount := 0
    factoryInvocations := 0, destroyCalls := 0, scheduleCount := 0
    lastDelayArg := none }

/-- The `TCPAdapter` constructor: start `#loop` only when the host
guard passes; otherwise nothing ever happens regardless of what the
network would have answered. -/
def constructAdapter (host : String) (attempts : List AttemptSpec) :
    RunResult :=
  if loopEnabled host then runLoopFrom initState attempts else noRunResult

/-- Effect of one invocation of the send callback handed to the session
factory: either an asynchronous transport write on a specific
connection, or a no-op that logs the stale-socket warning. -/
inductive SendAction where
  | write (target : ℕ) (data : List ℕ)
  | warnNoWrite
deriving DecidableEq, Repr

/-- The send callback closure built in `#loop`: it captures `conn` (the
connection of this attempt, identified here by a numeral) and compares
it against the engine's `#current_conn`; only on equality does it write,
and then only to the captured `conn` itself. -/
def send_callback (conn : ℕ) (current_conn : Option ℕ) (data : List ℕ) :
    SendAction :=
  if some conn = current_conn then .write conn data else .warnNoWrite

/-- State visible during the connected phase of one attempt: the two
signals, the engine's `#current_conn` reference and the number of
`session.recv` calls delivered so far. -/
structure ConnPhaseState where
  status : TCPAdapterConnectionStatus
  details : TCPAdapterConnectionDetails
  current_conn : Option ℕ
  recvCount : ℕ
deriving DecidableEq, Repr

/-- Events interleaved during the connected phase: an inbound chunk
delivered by the read pump (`session.recv`), or the rejection handler
of a `conn.write` issued while `conn` was still current — its `.catch`
invokes `#handle_err` and nothing else, leaving `#current_conn` and the
running pump untouched. -/
inductive ConnEvent where
  | recvChunk
  | writeReject (e : JSValue)
deriving DecidableEq, Repr

/-- Small-step semantics of the connected phase. -/
def connPhaseStep (s : ConnPhaseState) (ev : ConnEvent) : ConnPhaseState :=
  match ev with
  | .recvChunk => { s with recvCount := s.recvCount + 1 }
  | .writeReject e =>
    { s with status := .DISCONNECTED, details := handle_err_details e }

/-- State right after a successful connect of connection `c`: the batch
of step 4 has run (`CONNECTED`/`NO_ERROR`), `#current_conn = c`, no
chunk delivered yet. -/
def connectedPhaseStart (c : ℕ) : ConnPhaseState :=
  { status := .CONNECTED, details := .NO_ERROR
    current_conn := some c, recvCount := 0 }

/-- Back-off delay as the specification words it:
`delay = clamp_min(0, TargetWindow - AverageDuration)` with
`TargetWindow = 5000` ms, i.e. `max 0 (5000 - avg)`.  Stated from the
spec for comparison with the `delayArg` the code computes. -/
def spec_backoff_delay (avg : ℚ) : ℚ :=
  max 0 (5000 - avg)

/-- The last `n` elements of a list (helper for the FIFO statement). -/
def lastN (n : ℕ) (l : List ℚ) : List ℚ :=
  (l.reverse.take n).reverse

/-- Durations of a list of simulated attempts, in order. -/
def durationsOf (l : List AttemptSpec) : List ℚ :=
  l.map (fun sp => sp.duration)

/-- The sequence of values assigned to the `status` signal, extracted
from the batch log in order. -/
def statusWritesOf (bs : List BatchWrite) : List TCPAdapterConnectionStatus :=
  bs.filterMap (fun b => b.status)

/-- The status transitions the specification allows. -/
def allowedTransition :
    TCPAdapterConnectionStatus → TCPAdapterConnectionStatus → Bool
  | .DISCONNECTED, .CONNECTING => true
  | .CONNECTING, .CONNECTED => true
  | .CONNECTING, .DISCONNECTED => true
  | .CONNECTED, .DISCONNECTED => true
  | _, _ => false

/-- Check a status-write sequence starting from value `a`: every write
either repeats the current value (a signal write of an unchanged value,
which notifies nobody) or performs an allowed transition. -/
def chainOk (a : TCPAdapterConnectionStatus) :
    List TCPAdapterConnectionStatus → Bool
  | [] => true
  | b :: r => (decide (a = b) || allowedTransition a b) && chainOk b r

/-- Formalisation of the claim that the `details` signal changes value
only alongside a status write of `DISCONNECTED`, and is never written
in a batch whose status write is `CONNECTING` or `CONNECTED`; the first
argument tracks the current details value through the log. -/
def detailsOnlyOnDisconnect (d : TCPAdapterConnectionDetails) :
    List BatchWrite → Bool
  | [] => true
  | b :: r =>
    (match b.details with
     | none => true
     | some v =>
       (decide (v = d) || decide (b.status = some .DISCONNECTED)) &&
       !(decide (b.status = some .CONNECTING)) &&
       !(decide (b.status = some .CONNECTED))) &&
    detailsOnlyOnDisconnect (b.details.getD d) r

/-- Amended per-batch policy: a `details` write is always accompanied,
in the same batch, either by a status write of `DISCONNECTED`, or by
the status write of `CONNECTED` with the details value reset to
`NO_ERROR`. -/
def batchDetailOk (b : BatchWrite) : Bool :=
  match b.details with
  | none => true
  | some v =>
    decide (b.status = some .DISCONNECTED) ||
    (decide (b.status = some .CONNECTED) && decide (v = .NO_ERROR))

/-- Amended whole-log detail policy. -/
def detailsPolicyAmended (bs : List BatchWrite) : Bool :=
  bs.all batchDetailOk

/-- A run consisting of `n` attempts where the peer refuses each
connection immediately (each lasting 1 ms). -/
def refusedAttempts (n : ℕ) : List AttemptSpec :=
  List.replicate n { outcome := .connectFail (.error "ConnectionRefused"), duration := 1 }

/-! Helper lemmas (shared; not claim theorems). -/

theorem lastN_of_length_le (n : ℕ) (l : List ℚ) (h : l.length ≤ n) :
    lastN n l = l := by
  unfold lastN
  rw [List.take_of_length_le (by simpa using h), List.reverse_reverse]

theorem lastN_length_le (n : ℕ) (l : List ℚ) : (lastN n l).length ≤ n := by
  simp [lastN]

theorem lastN_cons_of_le (n : ℕ) (a : ℚ) (t : List ℚ) (h : n ≤ t.length) :
    lastN n (a :: t) = lastN n t := by
  unfold lastN
  rw [List.reverse_cons, List.take_append_of_le_length (by simpa using h)]

theorem shiftLoop_eq_lastN (fuel : ℕ) :
    ∀ h : List ℚ, h.length ≤ 6 + fuel → shiftLoop fuel h = lastN 6 h := by
  induction fuel with
  | zero =>
    intro h hle
    rw [shiftLoop, lastN_of_length_le 6 h (by omega)]
  | succ fuel ih =>
    intro h hle
    rw [shiftLoop]
    by_cases h6 : 6 < h.length
    · rw [if_pos h6]
      match h, h6 with
      | a :: t, h6 =>
        have ht : t.length ≤ 6 + fuel := by
          simp only [List.length_cons] at hle
          omega
        rw [List.tail_cons, ih t ht,
          lastN_cons_of_le 6 a t (by simp only [List.length_cons] at h6; omega)]
    · rw [if_neg h6, lastN_of_length_le 6 h (by omega)]

theorem shiftWhileOver6_eq_lastN (h : List ℚ) :
    shiftWhileOver6 h = lastN 6 h :=
  shiftLoop_eq_lastN h.length h (by omega)

theorem lastN_lastN_append (n : ℕ) (xs ys : List ℚ) :
    lastN n (lastN n xs ++ ys) = lastN n (xs ++ ys) := by
  unfold lastN
  rw [List.reverse_append, List.reverse_reverse, List.reverse_append]
  congr 1
  rw [List.take_append_eq_append_take, List.take_append_eq_append_take,
    List.take_take]
  congr 2
  omega

theorem loopIter_stats (st : EngineState) (sp : AttemptSpec) :
    (loopIter st sp).state.stats_conn_duration
      = lastN 6 (st.stats_conn_duration ++ [sp.duration]) := by
  rcases sp with ⟨oc, dur⟩
  cases oc with
  | connectFail e =>
    simp [loopIter, finishIter, handle_err, shiftWhileOver6_eq_lastN]
  | connOk rend =>
    cases rend <;>
      simp [loopIter, finishIter, handle_err, shiftWhileOver6_eq_lastN]

theorem loopIter_avg (st : EngineState) (sp : AttemptSpec) :
    (loopIter st sp).state.avg_conn_duration
      = some ((loopIter st sp).state.stats_conn_duration.sum /
          ((loopIter st sp).state.stats_conn_duration.length : ℚ)) := by
  rcases sp with ⟨oc, dur⟩
  cases oc with
  | connectFail e => rfl
  | connOk rend => cases rend <;> rfl

theorem loopIter_scheduledNext (st : EngineState) (sp : AttemptSpec) :
    (loopIter st sp).scheduledNext = true := by
  rcases sp with ⟨oc, dur⟩
  cases oc with
  | connectFail e => rfl
  | connOk rend => cases rend <;> rfl

theorem loopIter_destroy_eq_factory (st : EngineState) (sp : AttemptSpec) :
    (loopIter st sp).destroyCalls = (loopIter st sp).factoryInvocations := by
  rcases sp with ⟨oc, dur⟩
  cases oc with
  | connectFail e => rfl
  | connOk rend => cases rend <;> rfl

theorem runLoopFrom_stats (l : List AttemptSpec) :
    ∀ st : EngineState, st.stats_conn_duration.length ≤ 6 →
      (runLoopFrom st l).state.stats_conn_duration
        = lastN 6 (st.stats_conn_duration ++ durationsOf l) := by
  induction l with
  | nil =>
    intro st h
    simp only [runLoopFrom, durationsOf, List.map_nil, List.append_nil]
    exact (lastN_of_length_le 6 _ h).symm
  | cons sp rest ih =>
    intro st h
    have hlen : (loopIter st sp).state.stats_conn_duration.length ≤ 6 := by
      rw [loopIter_stats]
      exact lastN_length_le 6 _
    have hstep := ih (loopIter st sp).state hlen
    rw [loopIter_stats] at hstep
    calc (runLoopFrom st (sp :: rest)).state.stats_conn_duration
      = (runLoopFrom (loopIter st sp).state rest).state.stats_conn_duration := rfl
    _ = lastN 6 (lastN 6 (st.stats_conn_duration ++ [sp.duration]) ++ durationsOf rest) := hstep
    _ = lastN 6 ((st.stats_conn_duration ++ [sp.duration]) ++ durationsOf rest) :=
        lastN_lastN_append 6 _ _
    _ = lastN 6 (st.stats_conn_duration ++ durationsOf (sp :: rest)) := by
        rw [List.append_assoc]
        rfl

theorem runLoopFrom_avg (l : List AttemptSpec) :
    ∀ st : EngineState,
      (runLoopFrom st l).state.avg_conn_duration
        = if l.isEmpty then st.avg_conn_duration
          else some ((runLoopFrom st l).state.stats_conn_duration.sum /
              ((runLoopFrom st l).state.stats_conn_duration.length : ℚ)) := by
  induction l with
  | nil => intro st; rfl
  | cons sp rest ih =>
    intro st
    simp only [List.isEmpty_cons, if_neg Bool.false_ne_true]
    cases rest with
    | nil =>
      have h1 : (runLoopFrom st [sp]).state = (loopIter st sp).state := rfl
      rw [h1]
      exact loopIter_avg st sp
    | cons sp2 rest2 =>
      have h1 : (runLoopFrom st (sp :: sp2 :: rest2)).state
          = (runLoopFrom (loopIter st sp).state (sp2 :: rest2)).state := rfl
      rw [h1, ih (loopIter st sp).state]
      simp

theorem runLoopFrom_statusChain (l : List AttemptSpec) :
    ∀ st : EngineState,
      chainOk .DISCONNECTED (statusWritesOf (runLoopFrom st l).batches) = true := by
  induction l with
  | nil => intro st; rfl
  | cons sp rest ih =>
    intro st
    rcases sp with ⟨oc, dur⟩
    cases oc with
    | connectFail e => exact ih _
    | connOk rend => cases rend <;> exact ih _

theorem runLoopFrom_detailsPolicy (l : List AttemptSpec) :
    ∀ st : EngineState,
      detailsPolicyAmended (runLoopFrom st l).batches = true := by
  induction l with
  | nil => intro st; rfl
  | cons sp rest ih =>
    intro st
    rcases sp with ⟨oc, dur⟩
    cases oc with
    | connectFail e => exact ih _
    | connOk rend => cases rend <;> exact ih _

theorem runLoopFrom_counts (l : List AttemptSpec) :
    ∀ st : EngineState,
      (runLoopFrom st l).attemptCount = l.length ∧
      (runLoopFrom st l).scheduleCount = l.length ∧
      (runLoopFrom st l).destroyCalls = (runLoopFrom st l).factoryInvocations := by
  induction l with
  | nil => intro st; exact ⟨rfl, rfl, rfl⟩
  | cons sp rest ih =>
    intro st
    obtain ⟨h1, h2, h3⟩ := ih (loopIter st sp).state
    refine ⟨?_, ?_, ?_⟩
    · show (runLoopFrom (loopIter st sp).state rest).attemptCount + 1 = rest.length + 1
      rw [h1]
    · show (if (loopIter st sp).scheduledNext then 1 else 0)
          + (runLoopFrom (loopIter st sp).state rest).scheduleCount = rest.length + 1
      rw [loopIter_scheduledNext, if_pos rfl, h2]
      omega
    · show (loopIter st sp).destroyCalls
            + (runLoopFrom (loopIter st sp).state rest).destroyCalls
          = (loopIter st sp).factoryInvocations
            + (runLoopFrom (loopIter st sp).state rest).factoryInvocations
      rw [loopIter_destroy_eq_factory, h3]

theorem runLoopFrom_refused_details (n : ℕ) :
    ∀ st : EngineState, 0 < n →
      (runLoopFrom st (refusedAttempts n)).state.details
        = TCPAdapterConnectionDetails.ECONNREFUSED := by
  induction n with
  | zero => intro st h; omega
  | succ n ih =>
    intro st _
    cases n with
    | zero => rfl
    | succ m => exact ih _ (Nat.succ_pos m)

/-! Claim theorems. -/

/-- C1: the claim says the delay before the next attempt equals
`max(0, 5000 - AverageDuration)`, 4900 ms after a single 100 ms
attempt.  The code instead passes `Math.min(0, 5000 - avg)` to
`setTimeout`, which is 0 for every average below 5000 — contradicting
the adjacent comment about preventing a near-infinite retry loop.
After one attempt lasting 100 ms the scheduled delay argument is 0,
not the 4900 the specification (`spec_backoff_delay`) demands. -/
theorem backoff_min_instead_of_max :
    (runLoopFrom initState
      [{ outcome := .connOk (.readError (.error "ConnectionReset")),
         duration := 100 }]).state.avg_conn_duration = some 100 ∧
    (runLoopFrom initState
      [{ outcome := .connOk (.readError (.error "ConnectionReset")),
         duration := 100 }]).lastDelayArg = some 0 ∧
    spec_backoff_delay 100 = 4900 ∧
    (runLoopFrom initState
      [{ outcome := .connOk (.readError (.error "ConnectionReset")),
         duration := 100 }]).lastDelayArg ≠ some (spec_backoff_delay 100) := by
  refine ⟨?_, ?_, ?_, ?_⟩ <;>
    simp [runLoopFrom, loopIter, finishIter, handle_err, initState,
      shiftWhileOver6, shiftLoop, spec_backoff_delay, min_def, max_def]
  all_goals norm_num

/-- C2: a write issued through a session's send callback after its
connection has been superseded (the engine's current connection no
longer equals the captured one) performs no transport write at all —
it is a warning-logging no-op — so it can never reach the newer
connection's transport. -/
theorem stale_send_never_writes (conn : ℕ) (cur : Option ℕ)
    (data : List ℕ) (h : some conn ≠ cur) :
    send_callback conn cur data = SendAction.warnNoWrite ∧
    ∀ (t : ℕ) (d : List ℕ), send_callback conn cur data ≠ SendAction.write t d := by
  have hcb : send_callback conn cur data = SendAction.warnNoWrite := by
    unfold send_callback
    rw [if_neg h]
  refine ⟨hcb, fun t d hw => ?_⟩
  rw [hcb] at hw
  exact SendAction.noConfusion hw

theorem stale_send_never_writes_witness :
    (some 0 : Option ℕ) ≠ some 1 ∧
    send_callback 0 (some 1) [] = SendAction.warnNoWrite :=
  ⟨by decide, (stale_send_never_writes 0 (some 1) [] (by decide)).1⟩

/-- C3: the status signal starts at `DISCONNECTED`, and over any finite
sequence of simulated connect outcomes every status write either
repeats the current value (observably silent) or performs one of the
allowed transitions `DISCONNECTED → CONNECTING`,
`CONNECTING → CONNECTED`, `CONNECTING → DISCONNECTED`,
`CONNECTED → DISCONNECTED`; no state is ever skipped. -/
theorem status_transition_discipline (attempts : List AttemptSpec) :
    initState.status = TCPAdapterConnectionStatus.DISCONNECTED ∧
    chainOk TCPAdapterConnectionStatus.DISCONNECTED
      (statusWritesOf (runLoopFrom initState attempts).batches) = true :=
  ⟨rfl, runLoopFrom_statusChain attempts initState⟩

/-- C4: after any finite sequence of attempts the duration history is
exactly the last (at most) 6 attempt durations in order — each new
duration appended, oldest evicted first — its length never exceeds 6,
and the average signal is `NaN` (modelled `none`) until the first
attempt completes and afterwards equals the arithmetic mean of exactly
the retained entries. -/
theorem duration_history_fifo_capacity_mean (attempts : List AttemptSpec) :
    (runLoopFrom initState attempts).state.stats_conn_duration
        = lastN 6 (durationsOf attempts) ∧
    (runLoopFrom initState attempts).state.stats_conn_duration.length ≤ 6 ∧
    (runLoopFrom initState attempts).state.avg_conn_duration
      = (if attempts.isEmpty then none
         else some ((runLoopFrom initState attempts).state.stats_conn_duration.sum /
             ((runLoopFrom initState attempts).state.stats_conn_duration.length : ℚ))) := by
  have hs := runLoopFrom_stats attempts initState (by simp [initState])
  refine ⟨?_, ?_, ?_⟩
  · simpa [initState] using hs
  · rw [hs]
    exact lastN_length_le 6 _
  · simpa [initState] using runLoopFrom_avg attempts initState

/-- C5: `session.destroy()` is called exactly once per attempt in which
a session was created (every attempt whose connect succeeded, on every
exit path — clean close or read/`recv` error, even with no `recv`
delivered), and never for attempts whose connect failed; over any run
the number of destroy calls equals the number of factory-created
sessions. -/
theorem session_destroyed_exactly_once :
    (∀ (st : EngineState) (sp : AttemptSpec),
      (loopIter st sp).destroyCalls
        = (match sp.outcome with
           | .connectFail _ => 0
           | .connOk _ => 1) ∧
      (loopIter st sp).factoryInvocations = (loopIter st sp).destroyCalls) ∧
    (∀ (st : EngineState) (l : List AttemptSpec),
      (runLoopFrom st l).destroyCalls = (runLoopFrom st l).factoryInvocations) := by
  constructor
  · intro st sp
    rcases sp with ⟨oc, dur⟩
    cases oc with
    | connectFail e => exact ⟨rfl, rfl⟩
    | connOk rend => cases rend <;> exact ⟨rfl, rfl⟩
  · intro st l
    exact (runLoopFrom_counts l st).2.2

/-- C6: the error classifier maps a `ConnectionRefused` failure to
`ECONNREFUSED`, `ConnectionReset` to `ECONNRESET`, `TimedOut` to
`ETIMEDOUT`, `Interrupted` to `INTERRUPTED`, the locally-intended
`ConnectionAborted` to `NO_ERROR`, any `Error` with any other name to
`UNKNOWN_ERROR`, and any non-`Error` value to `UNKNOWN_ERROR`. -/
theorem error_classifier_taxonomy :
    handle_err_details (.error "ConnectionRefused")
        = TCPAdapterConnectionDetails.ECONNREFUSED ∧
    handle_err_details (.error "ConnectionReset")
        = TCPAdapterConnectionDetails.ECONNRESET ∧
    handle_err_details (.error "TimedOut")
        = TCPAdapterConnectionDetails.ETIMEDOUT ∧
    handle_err_details (.error "Interrupted")
        = TCPAdapterConnectionDetails.INTERRUPTED ∧
    handle_err_details (.error "ConnectionAborted")
        = TCPAdapterConnectionDetails.NO_ERROR ∧
    (∀ name : String, name ≠ "ConnectionRefused" → name ≠ "ConnectionReset" →
      name ≠ "Interrupted" → name ≠ "TimedOut" → name ≠ "ConnectionAborted" →
      handle_err_details (.error name) = TCPAdapterConnectionDetails.UNKNOWN_ERROR) ∧
    handle_err_details .other = TCPAdapterConnectionDetails.UNKNOWN_ERROR := by
  refine ⟨rfl, rfl, rfl, rfl, rfl, ?_, rfl⟩
  intro name h1 h2 h3 h4 h5
  simp [handle_err_details, h1, h2, h3, h4, h5]

theorem error_classifier_taxonomy_witness :
    ("BrokenPipe" : String) ≠ "ConnectionRefused" ∧
    handle_err_details (.error "BrokenPipe")
      = TCPAdapterConnectionDetails.UNKNOWN_ERROR :=
  ⟨by decide,
   error_classifier_taxonomy.2.2.2.2.2.1 "BrokenPipe" (by decide) (by decide)
     (by decide) (by decide) (by decide)⟩

/-- C7: with host `""` or the sentinel `"!"` the constructor never
starts the loop: whatever the network would have answered, the
observable result is the untouched initial one — zero connect
attempts, zero session-factory invocations, no signal writes, status
`DISCONNECTED` forever. -/
theorem disabled_host_never_runs (attempts : List AttemptSpec) :
    constructAdapter "" attempts = noRunResult ∧
    constructAdapter "!" attempts = noRunResult ∧
    noRunResult.state.status = TCPAdapterConnectionStatus.DISCONNECTED ∧
    noRunResult.attemptCount = 0 ∧
    noRunResult.factoryInvocations = 0 ∧
    noRunResult.batches = [] :=
  ⟨rfl, rfl, rfl, rfl, rfl, rfl⟩

/-- C8: the claim that the details signal changes value only alongside
a status transition to `DISCONNECTED` and is never updated alongside a
transition to `CONNECTING` or `CONNECTED` is false: in a run whose
first attempt is refused (details become `ECONNREFUSED`) and whose
second attempt connects, the success batch assigns
`details := NO_ERROR` — a genuine value change — in the same batch as
the status write of `CONNECTED`. -/
theorem details_on_connected_counterexample :
    detailsOnlyOnDisconnect TCPAdapterConnectionDetails.NO_ERROR
      (runLoopFrom initState
        [{ outcome := .connectFail (.error "ConnectionRefused"), duration := 1 },
         { outcome := .connOk .cleanClose, duration := 1 }]).batches = false := by
  rfl

/-- C8 (amended): every batch that writes the details signal either
also sets status to `DISCONNECTED`, or is the connect-success batch
setting status to `CONNECTED` with details reset to `NO_ERROR`; in
particular details are never updated alongside a transition to
`CONNECTING`. -/
theorem details_policy_with_connected_reset (attempts : List AttemptSpec) :
    detailsPolicyAmended (runLoopFrom initState attempts).batches = true :=
  runLoopFrom_detailsPolicy attempts initState

/-- C9: every attempt outcome — connect rejection, read error, or an
exception thrown by `session.recv` — is absorbed by the loop's
`catch`: every iteration completes and schedules a next attempt, a run
processes its whole outcome list, and under immediate
`ConnectionRefused` on every attempt the engine retries indefinitely
with `details` reading `ECONNREFUSED` after each failed attempt. -/
theorem failures_absorbed_retry_forever :
    (∀ (st : EngineState) (sp : AttemptSpec),
      (loopIter st sp).scheduledNext = true) ∧
    (∀ (st : EngineState) (l : List AttemptSpec),
      (runLoopFrom st l).attemptCount = l.length ∧
      (runLoopFrom st l).scheduleCount = l.length) ∧
    (∀ n : ℕ, 0 < n →
      (runLoopFrom initState (refusedAttempts n)).state.details
          = TCPAdapterConnectionDetails.ECONNREFUSED ∧
      (runLoopFrom initState (refusedAttempts n)).scheduleCount = n) := by
  refine ⟨loopIter_scheduledNext, ?_, ?_⟩
  · intro st l
    exact ⟨(runLoopFrom_counts l st).1, (runLoopFrom_counts l st).2.1⟩
  · intro n hn
    refine ⟨runLoopFrom_refused_details n initState hn, ?_⟩
    have h := (runLoopFrom_counts (refusedAttempts n) initState).2.1
    rwa [refusedAttempts, List.length_replicate] at h

theorem failures_absorbed_retry_forever_witness :
    0 < 3 ∧
    (runLoopFrom initState (refusedAttempts 3)).state.details
      = TCPAdapterConnectionDetails.ECONNREFUSED :=
  ⟨by decide, (failures_absorbed_retry_forever.2.2 3 (by decide)).1⟩

/-- C10: when an asynchronous write issued while its connection was
still current later rejects, the `.catch` handler runs `#handle_err`
immediately: status becomes `DISCONNECTED` and details the classified
failure, while `#current_conn` still points at the connection and the
read pump stays alive — a subsequent inbound chunk still invokes
`session.recv` with status already reading `DISCONNECTED`. -/
theorem write_reject_disconnects_pump_alive (c : ℕ) (e : JSValue) :
    (connPhaseStep (connectedPhaseStart c) (.writeReject e)).status
        = TCPAdapterConnectionStatus.DISCONNECTED ∧
    (connPhaseStep (connectedPhaseStart c) (.writeReject e)).details
        = handle_err_details e ∧
    (connPhaseStep (connectedPhaseStart c) (.writeReject e)).current_conn
        = some c ∧
    (connPhaseStep (connPhaseStep (connectedPhaseStart c) (.writeReject e))
        .recvChunk).recvCount
      = (connPhaseStep (connectedPhaseStart c) (.writeReject e)).recvCount + 1 ∧
    (connPhaseStep (connPhaseStep (connectedPhaseStart c) (.writeReject e))
        .recvChunk).status
      = TCPAdapterConnectionStatus.DISCONNECTED :=
  ⟨rfl, rfl, rfl, rfl, rfl⟩
